import Mathlib

/-!
Verification of the `api/transcribe` serverless handler of vida-ai-server.

The handler (src/api/transcribe.ts) accepts a multipart POST with an `audio`
file, transcribes it with a speech-to-text provider, asks a text-generation
provider for hashtags, sanitizes the hashtags, and answers `{text, tags}`.

The embedding below models the handler as a pure function of the request
method and a `World` record holding the outcomes of the external effects
(the environment variable, the multipart parse, the two provider calls).
JSON parsing of the provider completion is modelled by shipping the parse
outcome (`Option Json`) alongside the raw content string, since `JSON.parse`
itself is platform code outside this repository; the one string the code
substitutes itself, the literal "[]", has its parse fixed to the empty array.
-/

namespace VidaAI

/-- JSON values as produced by `JSON.parse` (numbers are irrelevant to the
tag pipeline beyond not being strings; we carry an `Int`). -/
inductive Json where
  | null
  | bool (b : Bool)
  | num (n : Int)
  | str (s : String)
  | arr (elems : List Json)
  | obj (fields : List (String × Json))

/-- Whitespace for JavaScript `String.prototype.trim`: WhiteSpace and
LineTerminator code points. -/
def isJsSpace (c : Char) : Bool :=
  c == ' ' || c == '\t' || c == '\n' || c == '\r' || c == '\u000b' || c == '\u000c' ||
  c == '\u00a0' || c == '\u1680' ||
  (decide ('\u2000' ≤ c) && decide (c ≤ '\u200a')) ||
  c == '\u2028' || c == '\u2029' || c == '\u202f' || c == '\u205f' ||
  c == '\u3000' || c == '\ufeff'

/-- JavaScript `t.trim()`: strip leading and trailing whitespace. -/
def jsTrim (s : String) : String :=
  ⟨((s.data.dropWhile isJsSpace).reverse.dropWhile isJsSpace).reverse⟩

/-- JavaScript `t.toLowerCase()` on the alphabet the tag pattern can accept:
the ASCII lowering `Char.toLower` applied per character. -/
def jsToLower (s : String) : String :=
  ⟨s.data.map Char.toLower⟩

/-- JavaScript `t.startsWith("#")`. -/
def jsStartsWithHash (s : String) : Bool :=
  match s.data with
  | c :: _ => c == '#'
  | [] => false

/-- Characters allowed in a tag body by the regex `[a-z0-9_-]`. -/
def isTagChar (c : Char) : Bool :=
  (decide ('a' ≤ c) && decide (c ≤ 'z')) ||
  (decide ('0' ≤ c) && decide (c ≤ '9')) ||
  c == '_' || c == '-'

/-- `/^#[a-z0-9_-]{2,30}$/.test t` -/
def matchesTagPattern (t : String) : Bool :=
  match t.data with
  | [] => false
  | c :: body =>
    c == '#' && decide (2 ≤ body.length) && decide (body.length ≤ 30) &&
      body.all isTagChar

/-- `.filter((t: unknown): t is string => typeof t === "string")` -/
def jsonAsString : Json → Option String
  | .str s => some s
  | _ => none

/-- The tag sanitization chain run on a parsed JSON array
(transcribe.ts lines 90-95): keep strings, trim+lowercase, prepend `#`
where missing, keep matches of `^#[a-z0-9_-]{2,30}$`, slice to 10. -/
def extractTagsFromArr (elems : List Json) : List String :=
  ((((elems.filterMap jsonAsString).map
      (fun t => jsToLower (jsTrim t))).map
      (fun t => if jsStartsWithHash t then t else "#" ++ t)).filter
      matchesTagPattern).take 10

/-- The content of a chat-completion message together with the outcome of
`JSON.parse` on it (`none` models a parse exception). `JSON.parse` is
platform code, so its verdict on the provider string travels with the
modelled completion. -/
structure ChatContent where
  raw : String
  parse : Option Json

/-- `tagResp.choices?.[0]?.message?.content?.trim() || "[]"` followed by
`JSON.parse`: a missing content or one trimming to the empty string is
replaced by the literal `"[]"`, which parses to the empty array. -/
def contentParsed (content : Option ChatContent) : Option Json :=
  match content with
  | none => some (.arr [])
  | some cv => if jsTrim cv.raw = "" then some (.arr []) else cv.parse

/-- The inner try/catch of the handler (lines 85-99): a parse exception or a
non-array parse leaves `tags` at its initial `[]`. -/
def extractTagsFromParse : Option Json → List String
  | some (.arr elems) => extractTagsFromArr elems
  | some _ => []
  | none => []

/-- Tags computed from a chat completion's content. -/
def extractTags (content : Option ChatContent) : List String :=
  extractTagsFromParse (contentParsed content)

/-- A file produced by the multipart parser. -/
structure AudioFile where
  filepath : String
deriving DecidableEq

/-- The `files.audio` field as formidable may deliver it: absent, a single
file object, or an array of files. -/
inductive FilesAudio where
  | missing
  | single (f : AudioFile)
  | array (fs : List AudioFile)
deriving DecidableEq

/-- Outcome of `form.parse`: an error or the (possibly absent) audio field. -/
inductive FormResult where
  | err (msg : String)
  | ok (audio : FilesAudio)
deriving DecidableEq

/-- `parseAudioFile` (lines 21-37): reject parse errors, normalize an array
to its first element, reject a missing field. -/
def parseAudioFile : FormResult → Except String AudioFile
  | .err msg => .error msg
  | .ok field =>
    let audio : Option AudioFile :=
      match field with
      | .array fs => fs.head?
      | .single f => some f
      | .missing => none
    match audio with
    | some a => .ok a
    | none => .error "Missing 'audio' file field"

/-- The tag prompt template (lines 60-74) with the transcript interpolated. -/
def tagPrompt (text : String) : String :=
  "Extract 3–7 concise hashtags that capture mood, themes, and activities from the journal entry.\n\nRules:\n- lowercase\n- single words only (no spaces)\n- prefix with \"#\"\n- avoid duplicates\n- keep them general (e.g., #happy, #stress, #creative, #exercise)\n\nReturn ONLY a JSON array of strings.\n\nEntry:\n---\n" ++ text ++ "\n---"

/-- JS truthiness of `process.env.OPENAI_API_KEY`: set and nonempty. -/
def envKeyTruthy : Option String → Bool
  | none => false
  | some s => s != ""

/-- `err?.message || "transcription failed"`: an empty message is falsy. -/
def errMessage (e : String) : String :=
  if e = "" then "transcription failed" else e

/-- Response body: `.end()` with no body, the success envelope, or an error
message object. -/
inductive Body where
  | empty
  | envelope (text : String) (tags : List String)
  | message (msg : String)
deriving DecidableEq

/-- The response: status, headers, body. -/
structure HttpResponse where
  status : Nat
  headers : List (String × String)
  body : Body
deriving DecidableEq

/-- The three headers installed by `setCors` (lines 12-16). -/
def corsHeaders : List (String × String) :=
  [("Access-Control-Allow-Origin", "*"),
   ("Access-Control-Allow-Methods", "POST, OPTIONS"),
   ("Access-Control-Allow-Headers", "Content-Type")]

/-- Which external effects the handler performed: did it run the multipart
parse, did it call the transcription endpoint, and with which user prompt
(if any) did it call the chat endpoint. -/
structure Trace where
  parsedUpload : Bool
  calledTranscription : Bool
  chatUserPrompt : Option String
deriving DecidableEq

/-- The trace of a request that short-circuited before the try block. -/
def noCalls : Trace := ⟨false, false, none⟩

/-- Outcomes of everything external to the handler: the environment
variable, the multipart parse, the transcription call (error message or
`tr?.text`), and the chat call as a function of the user prompt (error
message or `choices?.[0]?.message?.content`). -/
structure World where
  openaiApiKey : Option String
  form : FormResult
  transcription : Except String (Option String)
  chat : String → Except String (Option ChatContent)

/-- The handler (lines 39-106) as a function of the request method and the
world, returning the response and the effect trace. -/
def handler (method : String) (w : World) : HttpResponse × Trace :=
  if method = "OPTIONS" then
    (⟨204, corsHeaders, .empty⟩, noCalls)
  else if method ≠ "POST" then
    (⟨405, corsHeaders, .message "Method not allowed"⟩, noCalls)
  else if envKeyTruthy w.openaiApiKey = false then
    (⟨500, corsHeaders, .message "Server misconfigured: OPENAI_API_KEY not set"⟩, noCalls)
  else
    match parseAudioFile w.form with
    | .error e => (⟨500, corsHeaders, .message (errMessage e)⟩, ⟨true, false, none⟩)
    | .ok _audio =>
      match w.transcription with
      | .error e => (⟨500, corsHeaders, .message (errMessage e)⟩, ⟨true, true, none⟩)
      | .ok trText =>
        let text := jsTrim (trText.getD "")
        let prompt := tagPrompt text
        match w.chat prompt with
        | .error e => (⟨500, corsHeaders, .message (errMessage e)⟩, ⟨true, true, some prompt⟩)
        | .ok content =>
          (⟨200, corsHeaders, .envelope text (extractTags content)⟩, ⟨true, true, some prompt⟩)

/-! Second rendering of the sanitization pipeline, phrased step by step as
the specification words it (section 4.1, algorithm step 4), to be compared
with `extractTagsFromArr` taken from the code. -/

/-- Spec step: "filter to array entries that are strings". -/
def specStringEntries (elems : List Json) : List String :=
  elems.filterMap jsonAsString

/-- Spec steps: "trim and lowercase each; prepend `#` to any entry missing
it". -/
def specNormalize (t : String) : String :=
  let u := jsToLower (jsTrim t)
  if jsStartsWithHash u then u else "#" ++ u

/-- Spec pipeline: string entries, normalized, filtered on the tag pattern,
truncated to the first 10, in that order. -/
def specTagSteps (elems : List Json) : List String :=
  (((specStringEntries elems).map specNormalize).filter matchesTagPattern).take 10

/-! Concrete worlds used by the witness theorems. -/

/-- A parsed upload. -/
def sampleFile : AudioFile := ⟨"/tmp/upload.webm"⟩

/-- A well-behaved chat completion: the JSON array `["happy"]`. -/
def happyContent : ChatContent := ⟨"[\"happy\"]", some (.arr [.str "happy"])⟩

/-- A fully successful run: key set, single audio file, transcript
"hello world", chat completion `["happy"]`. -/
def wBase : World where
  openaiApiKey := some "sk-test"
  form := .ok (.single sampleFile)
  transcription := .ok (some "hello world")
  chat := fun _ => .ok (some happyContent)

/-- `wBase` with a chat completion that is not valid JSON. -/
def wBadJson : World :=
  { wBase with chat := fun _ => .ok (some ⟨"Here are your tags!", none⟩) }

/-- `wBase` with the environment variable unset. -/
def wNoKey : World := { wBase with openaiApiKey := none }

/-- `wBase` with an upload carrying no `audio` field. -/
def wMissingAudio : World := { wBase with form := .ok .missing }

/-- `wBase` with the transcription call throwing an error whose message is
the empty string. -/
def wEmptyTrErr : World := { wBase with transcription := .error "" }

/-- `wBase` with the transcription call throwing a nonempty error. -/
def wTrBoom : World :=
  { wBase with transcription := .error "401 Incorrect API key provided" }

/-- `wBase` with a transcription result carrying no text at all. -/
def wEmptyTr : World := { wBase with transcription := .ok none }

/-! Helper lemmas about the sanitization pipeline. -/

theorem matches_of_mem_extractTagsFromArr (elems : List Json) (t : String)
    (ht : t ∈ extractTagsFromArr elems) : matchesTagPattern t = true := by
  unfold extractTagsFromArr at ht
  exact (List.mem_filter.mp (List.mem_of_mem_take ht)).2

theorem length_extractTagsFromArr_le (elems : List Json) :
    (extractTagsFromArr elems).length ≤ 10 := by
  unfold extractTagsFromArr
  exact List.length_take_le 10 _

theorem extractTags_of_bad_parse (cv : ChatContent)
    (hbad : cv.parse = none ∨ ∃ j, cv.parse = some j ∧ ∀ elems, j ≠ Json.arr elems) :
    extractTags (some cv) = [] := by
  have hc : contentParsed (some cv) =
      if jsTrim cv.raw = "" then some (.arr []) else cv.parse := rfl
  unfold extractTags
  rw [hc]
  by_cases hraw : jsTrim cv.raw = ""
  · rw [if_pos hraw]
    rfl
  · rw [if_neg hraw]
    rcases hbad with h | ⟨j, hj, hne⟩
    · rw [h]; rfl
    · rw [hj]
      cases j with
      | arr elems => exact absurd rfl (hne elems)
      | null => rfl
      | bool b => rfl
      | num n => rfl
      | str s => rfl
      | obj fields => rfl

/-! Claim theorems. -/

/-- C1: whenever the chat completion's content parses as a JSON array of
strings, the 200 response carries a tags list in which every element
matches `^#[a-z0-9_-]{2,30}$` and whose length is at most 10. -/
theorem c1_tags_valid_and_bounded (w : World) (a : AudioFile)
    (trText : Option String) (cv : ChatContent) (elems : List Json)
    (hkey : envKeyTruthy w.openaiApiKey = true)
    (hform : parseAudioFile w.form = .ok a)
    (htr : w.transcription = .ok trText)
    (hchat : w.chat (tagPrompt (jsTrim (trText.getD ""))) = .ok (some cv))
    (hparse : contentParsed (some cv) = some (.arr elems))
    (_hstr : ∀ j ∈ elems, ∃ s, j = Json.str s) :
    ∃ tags,
      (handler "POST" w).1 = ⟨200, corsHeaders, .envelope (jsTrim (trText.getD "")) tags⟩ ∧
      (∀ t ∈ tags, matchesTagPattern t = true) ∧ tags.length ≤ 10 := by
  refine ⟨extractTagsFromArr elems, ?_, fun t ht => matches_of_mem_extractTagsFromArr elems t ht,
    length_extractTagsFromArr_le elems⟩
  unfold handler
  simp only [hkey, hform, htr, hchat]
  simp [extractTags, hparse, extractTagsFromParse]

/-- Witness for C1 at a concrete world. -/
theorem c1_witness :
    ∃ tags,
      (handler "POST" wBase).1 = ⟨200, corsHeaders, .envelope "hello world" tags⟩ ∧
      (∀ t ∈ tags, matchesTagPattern t = true) ∧ tags.length ≤ 10 :=
  c1_tags_valid_and_bounded wBase sampleFile (some "hello world") happyContent
    [.str "happy"] rfl rfl rfl rfl rfl
    (by intro j hj; rw [List.mem_singleton.mp hj]; exact ⟨"happy", rfl⟩)

/-- C2 (code evidence): the sanitization chain keeps duplicates — on the
provider output `["happy", "#happy", " HAPPY "]` it returns three copies of
`#happy`, not the single-entry list the de-duplication requirement asks
for. -/
theorem c2_code_keeps_duplicates :
    extractTagsFromArr [.str "happy", .str "#happy", .str " HAPPY "] =
      ["#happy", "#happy", "#happy"] ∧
    (["#happy", "#happy", "#happy"] : List String) ≠ ["#happy"] := by
  constructor
  · decide
  · decide

/-- C3: a chat completion whose content does not parse, or parses to a
non-array, degrades to the empty tags list and the request still answers
200 with the transcript. -/
theorem c3_bad_json_yields_empty_tags (w : World) (a : AudioFile)
    (trText : Option String) (cv : ChatContent)
    (hkey : envKeyTruthy w.openaiApiKey = true)
    (hform : parseAudioFile w.form = .ok a)
    (htr : w.transcription = .ok trText)
    (hchat : w.chat (tagPrompt (jsTrim (trText.getD ""))) = .ok (some cv))
    (hbad : cv.parse = none ∨ ∃ j, cv.parse = some j ∧ ∀ elems, j ≠ Json.arr elems) :
    (handler "POST" w).1 = ⟨200, corsHeaders, .envelope (jsTrim (trText.getD "")) []⟩ := by
  unfold handler
  simp only [hkey, hform, htr, hchat]
  simp [extractTags_of_bad_parse cv hbad]

/-- Witness for C3 at a concrete world whose completion is prose, not
JSON. -/
theorem c3_witness :
    (handler "POST" wBadJson).1 = ⟨200, corsHeaders, .envelope "hello world" []⟩ :=
  c3_bad_json_yields_empty_tags wBadJson sampleFile (some "hello world")
    ⟨"Here are your tags!", none⟩ rfl rfl rfl rfl (Or.inl rfl)

/-- C4: on a parsed array the code's tag list is exactly the spec's
step-by-step pipeline (strings only, trim+lowercase, prepend missing `#`,
keep pattern matches, first 10, in order), and an entry with internal
whitespace such as "#feeling good" is dropped. -/
theorem c4_pipeline_is_spec_steps :
    (∀ elems, extractTagsFromArr elems = specTagSteps elems) ∧
    extractTagsFromArr [Json.str "#feeling good"] = [] := by
  constructor
  · intro elems
    unfold extractTagsFromArr specTagSteps specStringEntries
    rw [List.map_map]
    rfl
  · decide

/-- C5: any method other than POST and OPTIONS is answered 405 with
"Method not allowed" and no effect is performed. -/
theorem c5_method_not_allowed (method : String) (w : World)
    (h1 : method ≠ "OPTIONS") (h2 : method ≠ "POST") :
    handler method w = (⟨405, corsHeaders, .message "Method not allowed"⟩, noCalls) := by
  unfold handler
  rw [if_neg h1, if_pos h2]

/-- Witness for C5 at method GET. -/
theorem c5_witness :
    handler "GET" wBase = (⟨405, corsHeaders, .message "Method not allowed"⟩, noCalls) :=
  c5_method_not_allowed "GET" wBase (by decide) (by decide)

/-- C6: OPTIONS is answered 204 with an empty body and the three CORS
headers set. -/
theorem c6_options_cors (w : World) :
    handler "OPTIONS" w = (⟨204, corsHeaders, .empty⟩, noCalls) ∧
    ("Access-Control-Allow-Origin", "*") ∈ corsHeaders ∧
    ("Access-Control-Allow-Methods", "POST, OPTIONS") ∈ corsHeaders ∧
    ("Access-Control-Allow-Headers", "Content-Type") ∈ corsHeaders := by
  refine ⟨?_, by decide, by decide, by decide⟩
  unfold handler
  rw [if_pos rfl]

/-- C7: a POST with the credential absent (or empty, equally falsy) is
answered 500 with the fixed message, which begins with
"Server misconfigured:", before any parse or provider call. -/
theorem c7_missing_key_short_circuit (w : World)
    (hkey : envKeyTruthy w.openaiApiKey = false) :
    handler "POST" w =
      (⟨500, corsHeaders, .message "Server misconfigured: OPENAI_API_KEY not set"⟩, noCalls) ∧
    "Server misconfigured: OPENAI_API_KEY not set" =
      "Server misconfigured:" ++ " OPENAI_API_KEY not set" := by
  refine ⟨?_, rfl⟩
  unfold handler
  simp [hkey]

/-- Witness for C7 with the variable unset. -/
theorem c7_witness :
    handler "POST" wNoKey =
      (⟨500, corsHeaders, .message "Server misconfigured: OPENAI_API_KEY not set"⟩, noCalls) ∧
    "Server misconfigured: OPENAI_API_KEY not set" =
      "Server misconfigured:" ++ " OPENAI_API_KEY not set" :=
  c7_missing_key_short_circuit wNoKey rfl

/-- C8: a POST whose upload has no `audio` file — the field absent or an
empty array — fails with 500 and the missing-input message, without
reaching the transcription call, rather than succeeding with empty tags. -/
theorem c8_missing_audio_500 (w : World)
    (hkey : envKeyTruthy w.openaiApiKey = true)
    (hform : w.form = .ok .missing ∨ w.form = .ok (.array [])) :
    handler "POST" w =
      (⟨500, corsHeaders, .message "Missing 'audio' file field"⟩, ⟨true, false, none⟩) := by
  have hp : parseAudioFile w.form = .error "Missing 'audio' file field" := by
    rcases hform with h | h <;> rw [h] <;> rfl
  unfold handler
  simp [hkey, hp, errMessage]

/-- Witness for C8 with the field absent. -/
theorem c8_witness :
    handler "POST" wMissingAudio =
      (⟨500, corsHeaders, .message "Missing 'audio' file field"⟩, ⟨true, false, none⟩) :=
  c8_missing_audio_500 wMissingAudio rfl (Or.inl rfl)

/-- C9 counterexample: a transcription error whose message is the empty
string is answered with the fallback text "transcription failed", not the
provider's error text verbatim. -/
theorem c9_counterexample :
    wEmptyTrErr.transcription = .error "" ∧
    (handler "POST" wEmptyTrErr).1 = ⟨500, corsHeaders, .message "transcription failed"⟩ ∧
    "transcription failed" ≠ "" := by
  refine ⟨rfl, ?_, by decide⟩
  rfl

/-- C9 (amended): a transcription error with a nonempty message is answered
500 with the provider's error text passed through verbatim; the chat call
is never made. -/
theorem c9_error_passthrough_nonempty (w : World) (a : AudioFile) (e : String)
    (hkey : envKeyTruthy w.openaiApiKey = true)
    (hform : parseAudioFile w.form = .ok a)
    (htr : w.transcription = .error e)
    (hne : e ≠ "") :
    handler "POST" w = (⟨500, corsHeaders, .message e⟩, ⟨true, true, none⟩) := by
  unfold handler
  simp [hkey, hform, htr, errMessage, hne]

/-- Witness for the amended C9 at a concrete provider error. -/
theorem c9_witness :
    handler "POST" wTrBoom =
      (⟨500, corsHeaders, .message "401 Incorrect API key provided"⟩, ⟨true, true, none⟩) :=
  c9_error_passthrough_nonempty wTrBoom sampleFile "401 Incorrect API key provided"
    rfl rfl rfl (by decide)

/-- C10: when the transcript normalizes to the empty string the chat call
is still issued, with the empty transcript interpolated into the prompt,
and the 200 response carries whatever validated tags that call yields. -/
theorem c10_empty_transcript_still_tags (w : World) (a : AudioFile)
    (trText : Option String) (content : Option ChatContent)
    (hkey : envKeyTruthy w.openaiApiKey = true)
    (hform : parseAudioFile w.form = .ok a)
    (htr : w.transcription = .ok trText)
    (hempty : jsTrim (trText.getD "") = "")
    (hchat : w.chat (tagPrompt "") = .ok content) :
    (handler "POST" w).2.chatUserPrompt = some (tagPrompt "") ∧
    (handler "POST" w).1 = ⟨200, corsHeaders, .envelope "" (extractTags content)⟩ := by
  unfold handler
  simp only [hkey, hform, htr, hempty, hchat]
  constructor
  · rfl
  · rfl

/-- Witness for C10: a transcription with no text still yields the chat
call on the empty-transcript prompt and the `#happy` tag. -/
theorem c10_witness :
    (handler "POST" wEmptyTr).2.chatUserPrompt = some (tagPrompt "") ∧
    (handler "POST" wEmptyTr).1 = ⟨200, corsHeaders, .envelope "" (extractTags (some happyContent))⟩ :=
  c10_empty_transcript_still_tags wEmptyTr sampleFile none (some happyContent)
    rfl rfl rfl rfl rfl

end VidaAI
